import Mathlib

/-!
Verification of the Magnetpro benchmark and scoring engine.

The JavaScript source (`src/services/apify.js` and the analyze route) is
shallowly embedded below.  JavaScript numbers are modelled by `ℚ` where the
code stays in the finite-number regime, and by the extended type `JSNum`
(rationals plus NaN and the two infinities) for `calculateOverallScore`,
whose division can leave the finite regime.  SQL queries over the
`profiles` table are modelled as filters over an explicit list of rows
(COUNT results are modelled as numbers).  JavaScript objects that may lack
a field are modelled as structures with `Option` fields.
-/

set_option maxRecDepth 100000

namespace Magnetpro

/-- JavaScript `Math.round` on a finite number: round half toward plus
infinity, i.e. `⌊x + 1/2⌋`. -/
def qround (x : ℚ) : ℚ := (⌊x + 1/2⌋ : ℤ)

/-- JavaScript `Array.prototype.findIndex(v => v >= value)`: index of the
first element that is `≥ value`, `none` when there is no such element
(the source's `-1` case). -/
def findIndexGe (value : ℚ) : List ℚ → Option ℕ
  | [] => none
  | x :: xs => if value ≤ x then some 0 else (findIndexGe value xs).map (· + 1)

/-- `calculatePercentile` from `src/services/apify.js` (lines 165-175):

    if (!distribution || distribution.length === 0) return 50;
    const sorted = distribution.sort((a, b) => a - b);
    const index = sorted.findIndex(v => v >= value);
    if (index === -1) return 100;
    const percentile = (index / sorted.length) * 100;
    return Math.round(percentile);

The in-place numeric-ascending `sort` is modelled by
`List.insertionSort (· ≤ ·)` (any ascending sort of the same multiset
yields the same list). -/
def calculatePercentile (value : ℚ) (distribution : List ℚ) : ℚ :=
  if distribution.length = 0 then 50
  else
    let sorted := List.insertionSort (· ≤ ·) distribution
    match findIndexGe value sorted with
    | none => 100
    | some index => qround (((index : ℚ) / (sorted.length : ℚ)) * 100)

/-- `calculatePercentile` together with the final state of the caller's
array: `Array.prototype.sort` mutates its receiver, and the early return
for an empty distribution leaves the array untouched. -/
def calculatePercentileMut (value : ℚ) (distribution : List ℚ) :
    ℚ × List ℚ :=
  if distribution.length = 0 then (50, distribution)
  else
    let sorted := List.insertionSort (· ≤ ·) distribution
    (calculatePercentile value distribution, sorted)

/-- Reference definition of the percentile, written from the
specification's words: empty distribution gives 50; otherwise, with the
distribution sorted ascending, if every sample is strictly below the value
the result is 100, else it is `round(i / length * 100)` where `i` is the
0-based index of the first sorted element `≥ value`. -/
def percentileSpec (value : ℚ) (distribution : List ℚ) : ℚ :=
  if distribution = [] then 50
  else if distribution.all (fun x => decide (x < value)) then 100
  else
    let sorted := List.insertionSort (· ≤ ·) distribution
    qround ((((findIndexGe value sorted).getD 0 : ℚ) /
      (distribution.length : ℚ)) * 100)

lemma findIndexGe_replicate_append (n : ℕ) (v x : ℚ) (h : x < v) :
    findIndexGe v (List.replicate n x ++ [v]) = some n := by
  induction n with
  | zero => simp [findIndexGe]
  | succ n ih =>
    rw [List.replicate_succ, List.cons_append]
    simp [findIndexGe, not_le.mpr h, ih]

lemma sorted_replicate_append (n : ℕ) (x v : ℚ) (h : x ≤ v) :
    List.Sorted (· ≤ ·) (List.replicate n x ++ [v]) := by
  induction n with
  | zero => simp
  | succ n ih =>
    rw [List.replicate_succ, List.cons_append, List.sorted_cons]
    refine ⟨fun b hb => ?_, ih⟩
    rcases List.mem_append.mp hb with hb | hb
    · rw [List.eq_of_mem_replicate hb]
    · rw [List.mem_singleton.mp hb]; exact h

lemma findIndexGe_eq_none_iff (value : ℚ) (l : List ℚ) :
    findIndexGe value l = none ↔ ∀ x ∈ l, x < value := by
  induction l with
  | nil => simp [findIndexGe]
  | cons x xs ih =>
    by_cases h : value ≤ x
    · refine ⟨fun hc => by simp [findIndexGe, h] at hc, fun hall => ?_⟩
      exact absurd h (not_le.mpr (hall x (List.mem_cons_self x xs)))
    · constructor
      · intro hc y hy
        have hnone : findIndexGe value xs = none := by
          simp only [findIndexGe, if_neg h] at hc
          cases hfi : findIndexGe value xs with
          | none => rfl
          | some i => rw [hfi] at hc; simp at hc
        rcases List.mem_cons.mp hy with rfl | hy'
        · exact not_le.mp h
        · exact (ih.mp hnone) y hy'
      · intro hall
        have hnone : findIndexGe value xs = none :=
          ih.mpr fun y hy => hall y (List.mem_cons_of_mem x hy)
        simp [findIndexGe, if_neg h, hnone]

/-- C1: for every value and distribution, `calculatePercentile` agrees
with the reference definition: 50 on an empty distribution; otherwise,
with the distribution sorted ascending and `i` the index of the first
element `≥ value`, `round(i / length * 100)`; 100 when every element is
strictly below the value. -/
theorem calculatePercentile_eq_spec (value : ℚ) (d : List ℚ) :
    calculatePercentile value d = percentileSpec value d := by
  by_cases hd : d = []
  · subst hd; rfl
  · have hlen : ¬d.length = 0 := by simpa [List.length_eq_zero] using hd
    by_cases hall : ∀ x ∈ d, x < value
    · have hnone : findIndexGe value (List.insertionSort (· ≤ ·) d) = none :=
        (findIndexGe_eq_none_iff _ _).mpr fun x hx =>
          hall x ((List.perm_insertionSort _ d).mem_iff.mp hx)
      have hallb : d.all (fun x => decide (x < value)) = true := by
        simpa [List.all_eq_true] using hall
      simp [calculatePercentile, percentileSpec, hd, hlen, hnone, hallb]
    · have hsome : findIndexGe value (List.insertionSort (· ≤ ·) d) ≠ none := by
        intro hc
        exact hall fun x hx =>
          (findIndexGe_eq_none_iff _ _).mp hc x
            ((List.perm_insertionSort _ d).mem_iff.mpr hx)
      rcases Option.ne_none_iff_exists'.mp hsome with ⟨i, hi⟩
      have hallb : ¬d.all (fun x => decide (x < value)) = true := by
        simp only [List.all_eq_true, decide_eq_true_eq]
        exact hall
      have hlen2 : (List.insertionSort (· ≤ ·) d).length = d.length :=
        (List.perm_insertionSort _ d).length_eq
      simp [calculatePercentile, percentileSpec, hd, hlen, hi, hallb, hlen2]

/-- C9: there are a non-empty distribution and a value not exceeding every
element of it (some element is `≥` the value) for which
`calculatePercentile` still returns 100 — 200 distinct samples queried at
the largest give `round(199/200*100) = 100` — so a result of 100 does not
imply the value exceeds all samples. -/
theorem calculatePercentile_hundred_without_exceeding :
    ∃ (d : List ℚ) (v : ℚ), d ≠ [] ∧ (∃ x ∈ d, v ≤ x) ∧
      calculatePercentile v d = 100 := by
  refine ⟨List.replicate 199 0 ++ [199], 199, by simp, ⟨199, by simp, le_refl _⟩, ?_⟩
  have hsorted : List.Sorted (· ≤ ·) (List.replicate 199 (0 : ℚ) ++ [199]) :=
    sorted_replicate_append 199 0 199 (by norm_num)
  have hfind : findIndexGe 199 (List.replicate 199 (0 : ℚ) ++ [199]) = some 199 :=
    findIndexGe_replicate_append 199 199 0 (by norm_num)
  have hlen : (List.replicate 199 (0 : ℚ) ++ [199]).length = 200 := by simp
  simp only [calculatePercentile, hsorted.insertionSort_eq, hfind, hlen]
  norm_num [qround]

/-- C10: `calculatePercentile` sorts the caller's array in place — after a
call with a non-empty distribution the array is an ascending permutation
of its old contents while the returned value is that of the pure
function — and the function is not observably pure: some input array is
changed by the call. -/
theorem calculatePercentileMut_sorts_in_place :
    (∀ (v : ℚ) (d : List ℚ), d ≠ [] →
        ((calculatePercentileMut v d).2.Sorted (· ≤ ·) ∧
          (calculatePercentileMut v d).2.Perm d) ∧
        (calculatePercentileMut v d).1 = calculatePercentile v d) ∧
    ∃ (v : ℚ) (d : List ℚ), (calculatePercentileMut v d).2 ≠ d := by
  constructor
  · intro v d hd
    have hlen : ¬d.length = 0 := by simpa [List.length_eq_zero] using hd
    refine ⟨⟨?_, ?_⟩, ?_⟩
    · simpa [calculatePercentileMut, hlen] using List.sorted_insertionSort _ d
    · simpa [calculatePercentileMut, hlen] using List.perm_insertionSort _ d
    · simp [calculatePercentileMut, hlen]
  · refine ⟨0, [2, 1], ?_⟩
    have : (calculatePercentileMut 0 [2, 1]).2 = [1, 2] := by
      norm_num [calculatePercentileMut, List.insertionSort, List.orderedInsert]
    rw [this]
    simp only [ne_eq, List.cons.injEq, not_and]
    intro h
    exact absurd h (by norm_num)

theorem calculatePercentileMut_sorts_in_place_witness :
    (((calculatePercentileMut 0 [2, 1]).2.Sorted (· ≤ ·) ∧
        (calculatePercentileMut 0 [2, 1]).2.Perm [2, 1]) ∧
      (calculatePercentileMut 0 [2, 1]).1 = calculatePercentile 0 [2, 1]) :=
  calculatePercentileMut_sorts_in_place.1 0 [2, 1] (by simp)

/-! ## JavaScript numbers for `calculateOverallScore`

`calculateOverallScore` divides by baseline averages without a guard, so
its arithmetic can leave the finite regime: `x/0` is `Infinity` (positive
`x`), `-Infinity` (negative `x`) or `NaN` (`0/0`), `Math.min`/`Math.max`
return `NaN` when any argument is `NaN`, and `NaN` propagates through
`+`, `*` and `Math.round`. -/

/-- A JavaScript number: a finite value (modelled exactly by `ℚ`), `NaN`,
`Infinity` or `-Infinity`. -/
inductive JSNum where
  | num (q : ℚ)
  | nan
  | inf
  | negInf
  deriving DecidableEq

namespace JSNum

/-- JavaScript division. -/
def div : JSNum → JSNum → JSNum
  | nan, _ => nan
  | _, nan => nan
  | inf, inf => nan
  | inf, negInf => nan
  | negInf, inf => nan
  | negInf, negInf => nan
  | inf, num b => if 0 ≤ b then inf else negInf
  | negInf, num b => if 0 ≤ b then negInf else inf
  | num _, inf => num 0
  | num _, negInf => num 0
  | num a, num b =>
      if b = 0 then (if a = 0 then nan else if 0 < a then inf else negInf)
      else num (a / b)

/-- JavaScript multiplication. -/
def mul : JSNum → JSNum → JSNum
  | nan, _ => nan
  | _, nan => nan
  | inf, inf => inf
  | inf, negInf => negInf
  | negInf, inf => negInf
  | negInf, negInf => inf
  | inf, num b => if b = 0 then nan else if 0 < b then inf else negInf
  | num a, inf => if a = 0 then nan else if 0 < a then inf else negInf
  | negInf, num b => if b = 0 then nan else if 0 < b then negInf else inf
  | num a, negInf => if a = 0 then nan else if 0 < a then negInf else inf
  | num a, num b => num (a * b)

/-- JavaScript addition. -/
def add : JSNum → JSNum → JSNum
  | nan, _ => nan
  | _, nan => nan
  | inf, negInf => nan
  | negInf, inf => nan
  | inf, _ => inf
  | _, inf => inf
  | negInf, _ => negInf
  | _, negInf => negInf
  | num a, num b => num (a + b)

/-- JavaScript `Math.min` of two arguments: `NaN` when either argument is
`NaN`. -/
def jmin : JSNum → JSNum → JSNum
  | nan, _ => nan
  | _, nan => nan
  | negInf, _ => negInf
  | _, negInf => negInf
  | inf, y => y
  | x, inf => x
  | num a, num b => num (min a b)

/-- JavaScript `Math.max` of two arguments: `NaN` when either argument is
`NaN`. -/
def jmax : JSNum → JSNum → JSNum
  | nan, _ => nan
  | _, nan => nan
  | inf, _ => inf
  | _, inf => inf
  | negInf, y => y
  | x, negInf => x
  | num a, num b => num (max a b)

/-- JavaScript `Math.round`: round half toward plus infinity on finite
numbers; `NaN` and the infinities are returned unchanged. -/
def round : JSNum → JSNum
  | num q => num (qround q)
  | nan => nan
  | inf => inf
  | negInf => negInf

end JSNum

/-- The profile fields read by `calculateOverallScore`. -/
structure ScoreProfile where
  followers : ℚ
  engagement_rate : ℚ
  post_frequency : ℚ

/-- The baseline fields read by `calculateOverallScore`. -/
structure ScoreBaseline where
  avg_followers : ℚ
  avg_engagement : ℚ
  avg_post_frequency : ℚ

/-- `calculateOverallScore` from `src/services/apify.js` (lines 392-407):

    const followerScore = Math.min(100, (profile.followers / benchmarks.avg_followers) * 100);
    const engagementScore = Math.min(100, (profile.engagement_rate / benchmarks.avg_engagement) * 100);
    const postScore = Math.min(100, (profile.post_frequency / benchmarks.avg_post_frequency) * 100);
    const overallScore = Math.round(
        (followerScore * 0.3) + (engagementScore * 0.5) + (postScore * 0.2)
    );
    return Math.min(100, Math.max(0, overallScore));
-/
def calculateOverallScore (profile : ScoreProfile) (benchmarks : ScoreBaseline) : JSNum :=
  let followerScore := JSNum.jmin (.num 100)
    (JSNum.mul (JSNum.div (.num profile.followers) (.num benchmarks.avg_followers)) (.num 100))
  let engagementScore := JSNum.jmin (.num 100)
    (JSNum.mul (JSNum.div (.num profile.engagement_rate) (.num benchmarks.avg_engagement)) (.num 100))
  let postScore := JSNum.jmin (.num 100)
    (JSNum.mul (JSNum.div (.num profile.post_frequency) (.num benchmarks.avg_post_frequency)) (.num 100))
  let overallScore := JSNum.round
    (JSNum.add (JSNum.add (JSNum.mul followerScore (.num (3/10)))
      (JSNum.mul engagementScore (.num (5/10)))) (JSNum.mul postScore (.num (2/10))))
  JSNum.jmin (.num 100) (JSNum.jmax (.num 0) overallScore)

/-- Reference definition of the overall score, written from the claim's
words: `clamp(round(0.3*min(100, followers/avgFollowers*100) +
0.5*min(100, engagementRate/avgEngagement*100) + 0.2*min(100,
postFrequency/avgPostFrequency*100)), 0, 100)`. -/
def overallScoreRef (profile : ScoreProfile) (benchmarks : ScoreBaseline) : ℚ :=
  min 100 (max 0 (qround
    (3/10 * min 100 (profile.followers / benchmarks.avg_followers * 100) +
     5/10 * min 100 (profile.engagement_rate / benchmarks.avg_engagement * 100) +
     2/10 * min 100 (profile.post_frequency / benchmarks.avg_post_frequency * 100))))

/-- C2: for every profile and every baseline with positive averages,
`calculateOverallScore` equals
`clamp(round(0.3*min(100, followers/avgFollowers*100) + 0.5*min(100,
engagementRate/avgEngagement*100) + 0.2*min(100,
postFrequency/avgPostFrequency*100)), 0, 100)`; in particular the profile
`{followers=12543, engagementRate=3.2, postFrequency=4.2}` against the
baseline `{avgFollowers=8500, avgEngagement=2.3, avgPostFrequency=5.2}`
yields 96. -/
theorem calculateOverallScore_matches_ref :
    (∀ (p : ScoreProfile) (b : ScoreBaseline),
        0 < b.avg_followers → 0 < b.avg_engagement → 0 < b.avg_post_frequency →
        calculateOverallScore p b = JSNum.num (overallScoreRef p b)) ∧
    calculateOverallScore ⟨12543, 16/5, 21/5⟩ ⟨8500, 23/10, 26/5⟩ = JSNum.num 96 := by
  constructor
  · intro p b h1 h2 h3
    have hf : ¬b.avg_followers = 0 := ne_of_gt h1
    have he : ¬b.avg_engagement = 0 := ne_of_gt h2
    have hp : ¬b.avg_post_frequency = 0 := ne_of_gt h3
    simp only [calculateOverallScore, overallScoreRef, JSNum.div, JSNum.mul,
      JSNum.jmin, JSNum.jmax, JSNum.add, JSNum.round, if_neg hf, if_neg he,
      if_neg hp, JSNum.num.injEq]
    refine congrArg (fun x => min 100 (max 0 (qround x))) ?_
    ring
  · norm_num [calculateOverallScore, JSNum.div, JSNum.mul, JSNum.jmin,
      JSNum.jmax, JSNum.add, JSNum.round, qround, min_def, max_def]

theorem calculateOverallScore_matches_ref_witness :
    calculateOverallScore ⟨12543, 16/5, 21/5⟩ ⟨8500, 23/10, 26/5⟩ =
      JSNum.num (overallScoreRef ⟨12543, 16/5, 21/5⟩ ⟨8500, 23/10, 26/5⟩) :=
  calculateOverallScore_matches_ref.1 ⟨12543, 16/5, 21/5⟩ ⟨8500, 23/10, 26/5⟩
    (by norm_num) (by norm_num) (by norm_num)

/-- C3: the code does NOT satisfy the claim: with the non-negative finite
profile metric `engagementRate = 0` and the non-negative finite baseline
average `avgEngagement = 0`, the unguarded `0/0` produces `NaN`, which
propagates through `Math.min` and the weighted sum to the returned value —
a non-numeric result, not a value in `[0,100]`. -/
theorem calculateOverallScore_nan_on_zero_average :
    calculateOverallScore ⟨12543, 0, 21/5⟩ ⟨8500, 0, 26/5⟩ = JSNum.nan := by
  norm_num [calculateOverallScore, JSNum.div, JSNum.mul, JSNum.jmin,
    JSNum.jmax, JSNum.add, JSNum.round]

/-! ## Benchmark resolution (`calculateBenchmarks` / `getGlobalBenchmarks`)

The corpus query result (rows of the `profiles` table matching the
industry, one of the location fields, and `last_scraped` within 30 days)
is passed as an explicit list of rows.  A JavaScript object that may lack
a field is modelled with `Option` fields: reading a missing field yields
`undefined`, modelled as `none`. -/

/-- A row of the corpus query feeding `calculateBenchmarks`:
`SELECT followers, engagement_rate, post_frequency, reel_percentage`.
`post_frequency` and `reel_percentage` may be NULL (`p.post_frequency || 0`
in the source). -/
structure PeerRow where
  followers : ℚ
  engagement_rate : ℚ
  post_frequency : Option ℚ
  reel_percentage : Option ℚ

/-- The object returned by benchmark resolution.  The hardcoded defaults
row carries only the three averages; the computed row also carries the
location key, the reel average, the two distributions and the sample
size. -/
structure BenchmarkRow where
  industry : Option String := none
  location_type : Option String := none
  location_value : Option String := none
  avg_followers : ℚ
  avg_engagement : ℚ
  avg_post_frequency : ℚ
  avg_reel_percentage : Option ℚ := none
  follower_distribution : Option (List ℚ) := none
  engagement_distribution : Option (List ℚ) := none
  sample_size : Option ℕ := none

/-- `getGlobalBenchmarks` from `src/services/apify.js` (lines 289-302):
the hardcoded per-industry table, with `benchmarks[industry] ||
benchmarks['default']` for an unknown industry.  Only the three average
fields are present on the returned object. -/
def getGlobalBenchmarks (industry : String) : BenchmarkRow :=
  match industry with
  | "fitness" => { avg_followers := 15000, avg_engagement := 35/10, avg_post_frequency := 52/10 }
  | "beauty" => { avg_followers := 25000, avg_engagement := 42/10, avg_post_frequency := 75/10 }
  | "health" => { avg_followers := 18000, avg_engagement := 38/10, avg_post_frequency := 48/10 }
  | "fashion" => { avg_followers := 35000, avg_engagement := 32/10, avg_post_frequency := 92/10 }
  | "food" => { avg_followers := 20000, avg_engagement := 45/10, avg_post_frequency := 8 }
  | "business" => { avg_followers := 12000, avg_engagement := 25/10, avg_post_frequency := 4 }
  | _ => { avg_followers := 15000, avg_engagement := 3, avg_post_frequency := 5 }

/-- `calculateBenchmarks` from `src/services/apify.js` (lines 210-284),
with the corpus query result passed explicitly: an empty result falls
back to `getGlobalBenchmarks`; otherwise the four averages are arithmetic
means over the rows and the two distributions are the raw per-row values.
(The upsert of the computed row into the `benchmarks` table is a side
effect on the store and does not alter the returned value.) -/
def calculateBenchmarks (rows : List PeerRow) (industry locationCity : String) :
    BenchmarkRow :=
  if rows.length = 0 then getGlobalBenchmarks industry
  else
    { industry := some industry
      location_type := some "city"
      location_value := some locationCity
      avg_followers := (rows.map (·.followers)).sum / rows.length
      avg_engagement := (rows.map (·.engagement_rate)).sum / rows.length
      avg_post_frequency := (rows.map (fun p => p.post_frequency.getD 0)).sum / rows.length
      avg_reel_percentage := some ((rows.map (fun p => p.reel_percentage.getD 0)).sum / rows.length)
      follower_distribution := some (rows.map (·.followers))
      engagement_distribution := some (rows.map (·.engagement_rate))
      sample_size := some rows.length }

/-- C4 counterexample: at the concrete input of the claim — an empty
corpus for industry `"kayaking"` — the resolved row has NO `sample_size`
field (reading it yields `undefined`, modelled `none`), not the value 0
the claim states. -/
theorem calculateBenchmarks_empty_sampleSize_not_zero :
    (calculateBenchmarks [] "kayaking" "nowhere").sample_size ≠ some 0 := by
  simp [calculateBenchmarks, getGlobalBenchmarks]

/-- C4 (amended): whenever the 30-day-filtered peer corpus is empty, the
resolved baseline is exactly the fixed per-industry defaults row — for an
industry outside the table, such as `"kayaking"`, the `default` row
`{avgFollowers:15000, avgEngagement:3.0, avgPostFrequency:5.0}` — which
has no distributions and no `sampleSize` field at all (`undefined`, a
falsy value like 0) rather than `sampleSize = 0`. -/
theorem calculateBenchmarks_empty_gives_defaults (rows : List PeerRow)
    (industry locationCity : String) (h : rows = []) :
    calculateBenchmarks rows industry locationCity = getGlobalBenchmarks industry ∧
    (getGlobalBenchmarks industry).follower_distribution = none ∧
    (getGlobalBenchmarks industry).engagement_distribution = none ∧
    (getGlobalBenchmarks industry).sample_size = none ∧
    getGlobalBenchmarks "kayaking" =
      { avg_followers := 15000, avg_engagement := 3, avg_post_frequency := 5 } := by
  subst h
  refine ⟨by simp [calculateBenchmarks], ?_, ?_, ?_, rfl⟩ <;>
    · unfold getGlobalBenchmarks
      split <;> rfl

theorem calculateBenchmarks_empty_gives_defaults_witness :
    calculateBenchmarks [] "kayaking" "nowhere" = getGlobalBenchmarks "kayaking" ∧
    (getGlobalBenchmarks "kayaking").follower_distribution = none ∧
    (getGlobalBenchmarks "kayaking").engagement_distribution = none ∧
    (getGlobalBenchmarks "kayaking").sample_size = none ∧
    getGlobalBenchmarks "kayaking" =
      { avg_followers := 15000, avg_engagement := 3, avg_post_frequency := 5 } :=
  calculateBenchmarks_empty_gives_defaults [] "kayaking" "nowhere" rfl

/-! ## Geographic rankings (`calculateRankings`)

The `profiles` table is passed as an explicit list of rows; each SQL
`COUNT(*)` becomes the length of the correspondingly filtered list
(COUNT results are modelled as numbers, so the only falsy count in
`total || fallback` is 0). -/

/-- A row of the `profiles` table, restricted to the columns
`calculateRankings` touches. -/
structure ProfileRow where
  username : String
  industry : String
  location_city : String
  location_state : String
  location_country : String
  followers : ℚ
  engagement_rate : ℚ

/-- The SQL dominance condition
`followers > $3 OR (followers = $3 AND engagement_rate > $4)` where `$3`,
`$4` are the subject's followers and engagement rate. -/
def dominates (followers engagement : ℚ) (r : ProfileRow) : Bool :=
  decide (r.followers > followers ∨
    (r.followers = followers ∧ r.engagement_rate > engagement))

/-- One scope of the rankings response. -/
structure ScopeResult where
  rank : ℕ
  total : ℕ
  name : String

/-- The value returned by `calculateRankings`. -/
structure Rankings where
  city : ScopeResult
  state : ScopeResult
  national : ScopeResult

/-- `calculateRankings` from `src/services/apify.js` (lines 307-387): the
subject is looked up by username (`Profile not found` becomes `none`);
each scope's rank is `COUNT(*) + 1` over rows matching the scope's
location column, the industry and the dominance condition; each scope's
total is the count of rows matching the location column and the industry,
with `total || 1000/5000/50000` substituting the fallback when the count
is zero. -/
def calculateRankings (table : List ProfileRow)
    (username industry locationCity locationState locationCountry : String) :
    Option Rankings :=
  match table.find? (fun r => r.username == username) with
  | none => none
  | some subject =>
    let followers := subject.followers
    let engagement_rate := subject.engagement_rate
    let cityRank := (table.filter (fun r =>
        r.location_city == locationCity && r.industry == industry &&
        dominates followers engagement_rate r)).length + 1
    let cityTotal := (table.filter (fun r =>
        r.location_city == locationCity && r.industry == industry)).length
    let stateRank := (table.filter (fun r =>
        r.location_state == locationState && r.industry == industry &&
        dominates followers engagement_rate r)).length + 1
    let stateTotal := (table.filter (fun r =>
        r.location_state == locationState && r.industry == industry)).length
    let nationalRank := (table.filter (fun r =>
        r.location_country == locationCountry && r.industry == industry &&
        dominates followers engagement_rate r)).length + 1
    let nationalTotal := (table.filter (fun r =>
        r.location_country == locationCountry && r.industry == industry)).length
    some
      { city :=
          { rank := cityRank
            total := if cityTotal = 0 then 1000 else cityTotal
            name := locationCity }
        state :=
          { rank := stateRank
            total := if stateTotal = 0 then 5000 else stateTotal
            name := locationState }
        national :=
          { rank := nationalRank
            total := if nationalTotal = 0 then 50000 else nationalTotal
            name := locationCountry } }

/-- C5: per scope, the reported rank is 1 plus the number of corpus
members matching the industry and that scope's location field that
strictly dominate the subject (followers greater, or followers equal and
engagement greater); consequently two subjects with identical followers
and engagement rate receive the same rank numbers. -/
theorem calculateRankings_rank_counts_dominators :
    (∀ (table : List ProfileRow) (u ind c s n : String) (subj : ProfileRow)
        (res : Rankings),
        table.find? (fun r => r.username == u) = some subj →
        calculateRankings table u ind c s n = some res →
        res.city.rank = (table.filter (fun r =>
            r.location_city == c && r.industry == ind &&
            dominates subj.followers subj.engagement_rate r)).length + 1 ∧
        res.state.rank = (table.filter (fun r =>
            r.location_state == s && r.industry == ind &&
            dominates subj.followers subj.engagement_rate r)).length + 1 ∧
        res.national.rank = (table.filter (fun r =>
            r.location_country == n && r.industry == ind &&
            dominates subj.followers subj.engagement_rate r)).length + 1) ∧
    (∀ (table : List ProfileRow) (u₁ u₂ ind c s n : String)
        (r₁ r₂ : ProfileRow) (res₁ res₂ : Rankings),
        table.find? (fun r => r.username == u₁) = some r₁ →
        table.find? (fun r => r.username == u₂) = some r₂ →
        r₁.followers = r₂.followers → r₁.engagement_rate = r₂.engagement_rate →
        calculateRankings table u₁ ind c s n = some res₁ →
        calculateRankings table u₂ ind c s n = some res₂ →
        res₁.city.rank = res₂.city.rank ∧ res₁.state.rank = res₂.state.rank ∧
          res₁.national.rank = res₂.national.rank) := by
  constructor
  · intro table u ind c s n subj res hfind hres
    simp only [calculateRankings, hfind, Option.some.injEq] at hres
    subst hres
    exact ⟨rfl, rfl, rfl⟩
  · intro table u₁ u₂ ind c s n r₁ r₂ res₁ res₂ hf₁ hf₂ hfol heng hres₁ hres₂
    simp only [calculateRankings, hf₁, Option.some.injEq] at hres₁
    simp only [calculateRankings, hf₂, Option.some.injEq] at hres₂
    subst hres₁
    subst hres₂
    rw [hfol, heng]
    exact ⟨rfl, rfl, rfl⟩

/-- C6: per scope, the reported total is the count of corpus members
matching the industry and the scope's location field, except that a zero
count is replaced by the fallback constant 1000 (city), 5000 (state) or
50000 (national). -/
theorem calculateRankings_total_counts_scope :
    ∀ (table : List ProfileRow) (u ind c s n : String) (res : Rankings),
      calculateRankings table u ind c s n = some res →
      (res.city.total =
        (if (table.filter (fun r => r.location_city == c && r.industry == ind)).length = 0
          then 1000
          else (table.filter (fun r => r.location_city == c && r.industry == ind)).length)) ∧
      (res.state.total =
        (if (table.filter (fun r => r.location_state == s && r.industry == ind)).length = 0
          then 5000
          else (table.filter (fun r => r.location_state == s && r.industry == ind)).length)) ∧
      (res.national.total =
        (if (table.filter (fun r => r.location_country == n && r.industry == ind)).length = 0
          then 50000
          else (table.filter (fun r => r.location_country == n && r.industry == ind)).length)) := by
  intro table u ind c s n res hres
  cases hfind : table.find? (fun r => r.username == u) with
  | none => rw [calculateRankings, hfind] at hres; cases hres
  | some subj =>
    simp only [calculateRankings, hfind, Option.some.injEq] at hres
    subst hres
    exact ⟨rfl, rfl, rfl⟩

/-- Concrete corpus used by the ranking witnesses: two peers with
identical metrics in the same city, state and country. -/
def sampleTable : List ProfileRow :=
  [⟨"alice", "fitness", "Austin", "TX", "US", 100, 3⟩,
   ⟨"bob", "fitness", "Austin", "TX", "US", 100, 3⟩]

def aliceRow : ProfileRow := ⟨"alice", "fitness", "Austin", "TX", "US", 100, 3⟩

def bobRow : ProfileRow := ⟨"bob", "fitness", "Austin", "TX", "US", 100, 3⟩

/-- Rankings of `alice` (and of `bob`) in `sampleTable`. -/
def sampleRes : Rankings := ⟨⟨1, 2, "Austin"⟩, ⟨1, 2, "TX"⟩, ⟨1, 2, "US"⟩⟩

/-- Rankings of `alice` queried against city `"Dallas"`, where no corpus
member matches, so the city total falls back to 1000. -/
def sampleResDallas : Rankings := ⟨⟨1, 1000, "Dallas"⟩, ⟨1, 2, "TX"⟩, ⟨1, 2, "US"⟩⟩

theorem calculateRankings_rank_counts_dominators_witness :
    ((sampleRes.city.rank = (sampleTable.filter (fun r =>
        r.location_city == "Austin" && r.industry == "fitness" &&
        dominates aliceRow.followers aliceRow.engagement_rate r)).length + 1 ∧
      sampleRes.state.rank = (sampleTable.filter (fun r =>
        r.location_state == "TX" && r.industry == "fitness" &&
        dominates aliceRow.followers aliceRow.engagement_rate r)).length + 1 ∧
      sampleRes.national.rank = (sampleTable.filter (fun r =>
        r.location_country == "US" && r.industry == "fitness" &&
        dominates aliceRow.followers aliceRow.engagement_rate r)).length + 1) ∧
     (sampleRes.city.rank = sampleRes.city.rank ∧
      sampleRes.state.rank = sampleRes.state.rank ∧
      sampleRes.national.rank = sampleRes.national.rank)) :=
  ⟨calculateRankings_rank_counts_dominators.1 sampleTable "alice" "fitness"
      "Austin" "TX" "US" aliceRow sampleRes rfl rfl,
   calculateRankings_rank_counts_dominators.2 sampleTable "alice" "bob" "fitness"
      "Austin" "TX" "US" aliceRow bobRow sampleRes sampleRes rfl rfl rfl rfl rfl rfl⟩

theorem calculateRankings_total_counts_scope_witness :
    (sampleResDallas.city.total =
      (if (sampleTable.filter (fun r =>
            r.location_city == "Dallas" && r.industry == "fitness")).length = 0
        then 1000
        else (sampleTable.filter (fun r =>
            r.location_city == "Dallas" && r.industry == "fitness")).length)) ∧
    (sampleResDallas.state.total =
      (if (sampleTable.filter (fun r =>
            r.location_state == "TX" && r.industry == "fitness")).length = 0
        then 5000
        else (sampleTable.filter (fun r =>
            r.location_state == "TX" && r.industry == "fitness")).length)) ∧
    (sampleResDallas.national.total =
      (if (sampleTable.filter (fun r =>
            r.location_country == "US" && r.industry == "fitness")).length = 0
        then 50000
        else (sampleTable.filter (fun r =>
            r.location_country == "US" && r.industry == "fitness")).length)) :=
  calculateRankings_total_counts_scope sampleTable "alice" "fitness" "Dallas"
    "TX" "US" sampleResDallas rfl

/-! ## Insights (`generateInsights` in the analyze route)

`message` and `recommendation` are presentation strings interpolating the
same numeric inputs; the claims under verification concern only which
insights are emitted, their `type`/`category` and their order, so the two
string fields are elided from the embedding. -/

inductive InsightType where
  | success
  | warning
  | info
  deriving DecidableEq

inductive InsightCategory where
  | engagement
  | frequency
  | content
  | overall
  deriving DecidableEq

/-- One emitted insight (presentation strings elided). -/
structure Insight where
  type : InsightType
  category : InsightCategory
  deriving DecidableEq

/-- The profile fields read by `generateInsights`:
`parseFloat(profile.engagement_rate)`,
`parseFloat(profile.post_frequency || 0)` (the column may be NULL) and
`profile.reel_percentage`. -/
structure InsightProfile where
  engagement_rate : ℚ
  post_frequency : Option ℚ
  reel_percentage : ℚ

/-- `generateInsights` from the analyze route (lines 282-342): four rules
evaluated in order — engagement (warning below `0.7×avg`, else success
above `1.3×avg`), posting frequency (warning below `0.7×avg`), content
mix (info when reels are under 30%), overall score (success at `≥ 85`,
else warning below 60) — each appending at most one insight. -/
def generateInsights (profile : InsightProfile) (benchmarks : BenchmarkRow)
    (score : ℚ) : List Insight :=
  let engagementRate := profile.engagement_rate
  let engagementInsights : List Insight :=
    if engagementRate < benchmarks.avg_engagement * (7/10) then
      [{ type := .warning, category := .engagement }]
    else if engagementRate > benchmarks.avg_engagement * (13/10) then
      [{ type := .success, category := .engagement }]
    else []
  let postFreq := profile.post_frequency.getD 0
  let frequencyInsights : List Insight :=
    if postFreq < benchmarks.avg_post_frequency * (7/10) then
      [{ type := .warning, category := .frequency }]
    else []
  let contentInsights : List Insight :=
    if profile.reel_percentage < 30 then
      [{ type := .info, category := .content }]
    else []
  let overallInsights : List Insight :=
    if score ≥ 85 then
      [{ type := .success, category := .overall }]
    else if score < 60 then
      [{ type := .warning, category := .overall }]
    else []
  engagementInsights ++ frequencyInsights ++ contentInsights ++ overallInsights

/-- C7: an engagement warning is emitted iff
`engagementRate < avgEngagement * 0.7` (strict: equality at the threshold
emits nothing, any rate strictly below does), and the engagement success
insight is emitted iff the warning did not fire and
`engagementRate > avgEngagement * 1.3` (strict) — so success requires a
rate strictly above `1.3×avg`. -/
theorem generateInsights_engagement_thresholds :
    ∀ (p : InsightProfile) (b : BenchmarkRow) (score : ℚ),
      (Insight.mk .warning .engagement ∈ generateInsights p b score ↔
        p.engagement_rate < b.avg_engagement * (7/10)) ∧
      (Insight.mk .success .engagement ∈ generateInsights p b score ↔
        (¬p.engagement_rate < b.avg_engagement * (7/10) ∧
          p.engagement_rate > b.avg_engagement * (13/10))) := by
  intro p b score
  constructor <;>
    · simp only [generateInsights]
      split_ifs <;> simp_all [List.mem_append]

/-- C8: the four rules are evaluated in the fixed order engagement,
frequency, content, overall, each appending at most one insight: the
emitted categories form a subsequence of that order, the list holds at
most 4 insights, and it is empty iff every rule's condition is false. -/
theorem generateInsights_rule_order :
    ∀ (p : InsightProfile) (b : BenchmarkRow) (score : ℚ),
      ((generateInsights p b score).map Insight.category).Sublist
        [InsightCategory.engagement, InsightCategory.frequency,
          InsightCategory.content, InsightCategory.overall] ∧
      (generateInsights p b score).length ≤ 4 ∧
      (generateInsights p b score = [] ↔
        (¬(p.engagement_rate < b.avg_engagement * (7/10) ∨
            p.engagement_rate > b.avg_engagement * (13/10)) ∧
         ¬p.post_frequency.getD 0 < b.avg_post_frequency * (7/10) ∧
         ¬p.reel_percentage < 30 ∧
         ¬(score ≥ 85 ∨ score < 60))) := by
  intro p b score
  refine ⟨?_, ?_, ?_⟩ <;>
    · simp only [generateInsights]
      split_ifs <;> first | decide | simp_all

end Magnetpro
